import Mathlib

/-!
Verification of the incremental feed-harvesting engine of the
facebook-group-scraper repository (scripts/facebook-scraper.js,
scripts/content-script.js, popup/popup.js), as a shallow embedding.

DOM access is modelled by explicit input data: a candidate node carries the
results of the attribute/anchor/text queries the scraper performs on it, and
the content-extraction pipeline takes the list of candidate text sections the
five extraction methods produced.  JavaScript 32-bit integer operations are
modelled on Int with explicit wrap-around; JavaScript float comparisons
against the literals 1.2, 0.85 and 0.3 are modelled by the exact rational
comparisons they compute for integer string lengths (for lengths below 2^47
the double rounding error is smaller than the distance to the nearest
rational with denominator 5, 20 or 10, so the comparisons agree).
-/

/-- JavaScript ToInt32: wrap an integer to the signed 32-bit range,
as the `& ` and `<< ` operators do. -/
def toInt32 (n : Int) : Int := (n + 2 ^ 31) % 2 ^ 32 - 2 ^ 31

/-- A JavaScript number that is either an actual integer or NaN (reading
`charCodeAt` past the end of the string yields NaN). -/
inductive JSNum where
  | nan
  | int (v : Int)
deriving DecidableEq

/-- `str.charCodeAt(i)`: the code of the i-th character, NaN out of range. -/
def charCodeAt (s : String) (i : Nat) : JSNum :=
  match s.data[i]? with
  | some c => .int c.toNat
  | none => .nan

/-- One iteration of the scraper's hash loop:
`hash = (hash << 5) - hash + char; hash = hash & hash;`.
When `char` is NaN the sum is NaN and `NaN & NaN` is 0. -/
def hashStep (hash : Int) (c : JSNum) : Int :=
  match c with
  | .nan => 0
  | .int v => toInt32 (toInt32 (hash * 32) - hash + v)

/-- The hash loop of `createContentFingerprint` (facebook-scraper.js lines
332-337), which iterates over every character of the composite string. -/
def hashLoop (s : String) : Int :=
  s.data.foldl (fun hash c => toInt32 (toInt32 (hash * 32) - hash + c.toNat)) 0

/-- The standalone `hashString` helper (facebook-scraper.js lines 348-356).
Its loop header is `for (let i = 0; str.length; i++)`: the guard is the
constant `str.length`, not `i < str.length`, so the loop exits only when the
string is empty.  The loop is modelled with explicit fuel; a result `none`
for every fuel means the loop never terminates. -/
def hashStringFuel (str : String) : Nat → Int → Nat → Option Int
  | 0, _, _ => none
  | fuel + 1, hash, i =>
    if str.length = 0 then some hash
    else hashStringFuel str fuel (hashStep hash (charCodeAt str i)) (i + 1)

/-- Digit of `Number.prototype.toString(16)`: 0-9 then lowercase a-f. -/
def hexDigitChar (n : Nat) : Char :=
  if n < 10 then Char.ofNat (48 + n) else Char.ofNat (87 + n)

/-- Hex digits of a positive number, most significant first. -/
def hexCore (n : Nat) (acc : List Char) : List Char :=
  if h : n = 0 then acc
  else hexCore (n / 16) (hexDigitChar (n % 16) :: acc)
decreasing_by exact Nat.div_lt_self (Nat.pos_of_ne_zero h) (by norm_num)

/-- `n.toString(16)` for a natural number. -/
def hexOfNat (n : Nat) : String :=
  if n = 0 then "0" else String.mk (hexCore n [])

/-- JavaScript word character, `\w` = `[A-Za-z0-9_]` (ASCII only). -/
def isWordChar (c : Char) : Bool :=
  (65 ≤ c.toNat && c.toNat ≤ 90) || (97 ≤ c.toNat && c.toNat ≤ 122) ||
    (48 ≤ c.toNat && c.toNat ≤ 57) || c = '_'

mutual

/-- `str.split(/\W+/)` while reading word characters: `acc` holds the
current word reversed. -/
def splitWords : List Char → List Char → List String
  | [], acc => [String.mk acc.reverse]
  | c :: rest, acc =>
    if isWordChar c then splitWords rest (c :: acc)
    else String.mk acc.reverse :: splitWordsSep rest

/-- `str.split(/\W+/)` while skipping a run of separator characters. -/
def splitWordsSep : List Char → List String
  | [] => [""]
  | c :: rest => if isWordChar c then splitWords rest [c] else splitWordsSep rest

end

/-- The set of words of `str.toLowerCase().split(/\W+/)`, as built by
`new Set(words)` in `calculateSimilarity`. -/
def wordSet (s : String) : Finset String :=
  (splitWords s.toLower.data []).toFinset

/-- `calculateSimilarity` (facebook-scraper.js lines 1856-1881): 0 when the
lengths differ by more than 30% of the larger, otherwise the Jaccard
similarity of the lowercase word sets.  `|l1-l2|/max > 0.3` is modelled by
the exact rational comparison `10*|l1-l2| > 3*max` (see the header note);
when both strings are empty the JavaScript quotient is NaN and the
comparison is false, matching `10*0 > 3*0`. -/
def calculateSimilarity (str1 str2 : String) : ℚ :=
  if 10 * (max str1.length str2.length - min str1.length str2.length) >
      3 * max str1.length str2.length then 0
  else
    (((wordSet str1 ∩ wordSet str2).card : ℚ)) /
      (((wordSet str1).card : ℚ) + ((wordSet str2).card : ℚ) -
        ((wordSet str1 ∩ wordSet str2).card : ℚ))

/-- `big.includes(small)` on character lists: contiguous substring test. -/
def jsIncludes (big small : List Char) : Bool :=
  match big with
  | [] => small.isEmpty
  | _ :: rest => small.isPrefixOf big || jsIncludes rest small

/-- The near-duplicate test of `extractAllContent`'s final filter
(facebook-scraper.js lines 1836-1848): a previous (longer) text suppresses
`text` when `prevText.length > text.length * 1.2` and `prevText` contains
`text` or their similarity exceeds 0.85.  The float comparisons are modelled
by the exact rational comparisons `5*len > 6*len` and `sim > 17/20`. -/
def nearDuplicateOf (prevText text : String) : Bool :=
  if 5 * prevText.length > 6 * text.length then
    jsIncludes prevText.data text.data ||
      decide ((17 : ℚ) / 20 < calculateSimilarity prevText text)
  else false

/-- Stable insertion of a string into a list sorted by descending length:
an existing strictly longer string stays in front, otherwise the new
string is placed first (preserving original order among equal lengths,
as the ECMAScript stable `sort((a, b) => b.length - a.length)` does). -/
def insertByLen (x : String) : List String → List String
  | [] => [x]
  | y :: ys => if y.length > x.length then y :: insertByLen x ys else x :: y :: ys

/-- `array.sort((a, b) => b.length - a.length)`: stable sort by descending
length (a stable sort's output is unique, so insertion sort computes it). -/
def sortByLenDesc (l : List String) : List String := l.foldr insertByLen []

/-- The final `filter` of `extractAllContent` (lines 1836-1849): each
candidate is compared against `array.slice(0, index)` — every earlier
element of the sorted array, kept or not — accumulated here in `prevs`. -/
def dropNearDupsAux (prevs : List String) : List String → List String
  | [] => []
  | text :: rest =>
    if prevs.any (fun prevText => nearDuplicateOf prevText text) then
      dropNearDupsAux (prevs ++ [text]) rest
    else text :: dropNearDupsAux (prevs ++ [text]) rest

/-- The surviving content sections of `extractAllContent` (lines 1834-1849):
the candidate sections sorted by descending length, with near-duplicates
dropped. `contents` stands for `Array.from(allContent)`, the distinct text
sections gathered by the extraction methods of the DOM-bound code. -/
def extractAllContentKept (contents : List String) : List String :=
  dropNearDupsAux [] (sortByLenDesc contents)

/-- `extractAllContent` (lines 1815-1851): the kept sections joined with
blank lines. -/
def extractAllContent (contents : List String) : String :=
  String.intercalate "\n\n" (extractAllContentKept contents)

/-- The adaptive settle delay of `loadMoreContent` (line 186):
`Math.max(500, Math.min(2000, this.lastLoadTime))`. -/
def loadMoreTimeout (lastLoadTime : Int) : Int :=
  max 500 (min 2000 lastLoadTime)

/-- `this.lastLoadTime = 1000` — the constructor's and `startCollecting`'s
initial value of the load-time tracker (lines 13 and 1040). -/
def initialLastLoadTime : Int := 1000

/-- The parsed `data-ft` attribute: the two identifier fields `extractPostId`
reads, with `""` standing for a missing or empty (JavaScript-falsy) field. -/
structure FtData where
  top_level_post_id : String
  content_owner_id_new : String
deriving DecidableEq

/-- A candidate post node, carrying the results of the DOM queries
`extractPostId` and `createContentFingerprint` perform on it:
`dataFt = none` means no `data-ft` attribute, `some none` an attribute whose
JSON does not parse, `some (some d)` a parsed attribute; `permalinkHrefs`
holds the `href` of the first anchor matching each of the three permalink
selectors, in selector order; `authorText` the text of the author element,
if one matches; `domFault = true` means a DOM access inside
`createContentFingerprint`'s try block throws (its catch returns null). -/
structure PostNode where
  dataFt : Option (Option FtData)
  permalinkHrefs : List String
  textContent : String
  authorText : Option String
  domFault : Bool
deriving DecidableEq

/-- Tier 1 of `extractPostId` (lines 255-267): the canonical identifier from
the parsed `data-ft` attribute, `top_level_post_id` first, then
`content_owner_id_new`; JSON parse failure falls through. -/
def dataFtId (n : PostNode) : Option String :=
  match n.dataFt with
  | some (some parsed) =>
    if parsed.top_level_post_id ≠ "" then some parsed.top_level_post_id
    else if parsed.content_owner_id_new ≠ "" then some parsed.content_owner_id_new
    else none
  | _ => none

/-- Leftmost match of a pattern followed by at least one digit: the capture
of a regex such as `/\/permalink\/(\d+)/` against the href. -/
def scanPatDigits (pat : List Char) : List Char → Option String
  | [] => none
  | c :: rest =>
    if pat.isPrefixOf (c :: rest) then
      if (((c :: rest).drop pat.length).takeWhile Char.isDigit).isEmpty then
        scanPatDigits pat rest
      else some (String.mk (((c :: rest).drop pat.length).takeWhile Char.isDigit))
    else scanPatDigits pat rest

/-- The three permalink regexes of `extractPostId` (lines 279-289), tried in
order against one href. -/
def permalinkId (href : String) : Option String :=
  match scanPatDigits "/permalink/".data href.data with
  | some id => some id
  | none =>
    match scanPatDigits "/posts/".data href.data with
    | some id => some id
    | none => scanPatDigits "story_fbid=".data href.data

/-- Tier 2 of `extractPostId` (lines 270-291): the first permalink-selector
anchor with a truthy href whose href matches one of the three patterns. -/
def permalinkTierId (n : PostNode) : Option String :=
  n.permalinkHrefs.findSome? (fun href => if href = "" then none else permalinkId href)

/-- `createContentFingerprint` (lines 314-343): hash of the (untruncated)
author name, an underscore, and the first 100 characters of the node text,
trimmed; rendered as lowercase hex of the absolute value.  When a DOM access
inside the try block throws, the catch returns null. -/
def createContentFingerprint (n : PostNode) : Option String :=
  if n.domFault then none
  else
    some (hexOfNat (hashLoop
      ((match n.authorText with
        | some t => t.trim
        | none => "") ++ "_" ++ (String.mk (n.textContent.data.take 100)).trim)).natAbs)

/-- `extractPostId` (lines 249-309): metadata tier, then permalink tier, then
content fingerprint, then a generated identifier.  `gen` stands for the
run-dependent `Date.now()` and `Math.random()` suffix of one invocation; the
outer catch also returns the same generated shape. -/
def extractPostId (n : PostNode) (gen : String) : String :=
  match dataFtId n with
  | some id => id
  | none =>
    match permalinkTierId n with
    | some id => id
    | none =>
      match createContentFingerprint n with
      | some fp => "content_" ++ fp
      | none => "generated_" ++ gen

/-- Author record as `extractAuthor` produces it. -/
structure Author where
  name : String
  id : Option String
  profileUrl : Option String
deriving DecidableEq

/-- Comment record as `extractComments` produces it. -/
structure Comment where
  authorName : String
  content : String
  timestamp : String
  images : List String
deriving DecidableEq

/-- The post record `extractPostData` (lines 361-398) assembles. -/
structure Post where
  postId : String
  content : String
  author : Author
  timestamp : String
  images : List String
  likes : Nat
  comments : List Comment
  extraction_success : Bool
deriving DecidableEq

/-- `extractPostData` (lines 361-398): the body text is
`extractAllContent`'s result over the node's candidate sections; the stored
content is `postText || '[No content extracted]'` and the success flag is
`!!postText`.  The other fields are the values the independent field
extractors returned for the node. -/
def extractPostData (postId : String) (contents : List String) (author : Author)
    (timestamp : String) (images : List String) (likes : Nat)
    (comments : List Comment) : Post :=
  let postText := extractAllContent contents
  { postId := postId
    content := if postText = "" then "[No content extracted]" else postText
    author := author
    timestamp := timestamp
    images := images
    likes := likes
    comments := comments
    extraction_success := postText != "" }

/-- `removeDuplicatePosts` calls `createContentFingerprint` on the plain
object `{ textContent: post.content }` (line 2016); that object has no
`querySelector` method, so the call throws inside the try block and the
catch returns null. -/
def createContentFingerprintPlain (_content : String) : Option String := none

/-- The deduplication key of `removeDuplicatePosts` (lines 2014-2016):
`post.postId || createContentFingerprint({ textContent: post.content })`,
with `none` standing for JavaScript null. -/
def dedupKey (post : Post) : Option String :=
  if post.postId ≠ "" then some post.postId
  else createContentFingerprintPlain post.content

/-- The filter body of `removeDuplicatePosts` (lines 2011-2025): keep a post
exactly when its key has not been seen before. -/
def removeDuplicatePostsAux (seen : List (Option String)) : List Post → List Post
  | [] => []
  | post :: rest =>
    if dedupKey post ∈ seen then removeDuplicatePostsAux seen rest
    else post :: removeDuplicatePostsAux (dedupKey post :: seen) rest

/-- `removeDuplicatePosts` (lines 2010-2028). -/
def removeDuplicatePosts (posts : List Post) : List Post :=
  removeDuplicatePostsAux [] posts

/-- Group metadata as `extractGroupInfo` produces it. -/
structure GroupInfo where
  name : String
  id : String
  url : String
  membersCount : String
deriving DecidableEq

/-- The scraper instance state touched by the collection lifecycle. -/
structure ScraperState where
  scrapedPosts : List Post
  processedIds : List String
  isCollecting : Bool
  isPaused : Bool
  postsToCollect : Nat
  lastLoadTime : Int
  groupInfo : Option GroupInfo
deriving DecidableEq

/-- A result object as saved to localStorage: `finishCollection`'s completed
result or `saveCurrentProgress`'s partial result.  `partialData` models the
`partialData` field, `false` when the field is absent (JavaScript
undefined). -/
structure StoredResult where
  group : Option GroupInfo
  posts : List Post
  totalScraped : Nat
  isComplete : Bool
  partialData : Bool
deriving DecidableEq

/-- `finishCollection` (lines 880-949): bail out unless collecting; run
`removeDuplicatePosts` over `scrapedPosts`, then emit the result whose
`posts` is `scrapedPosts.slice(0, postsToCollect)` and whose `totalScraped`
is the deduplicated length, marked `isComplete: true`. -/
def finishCollection (st : ScraperState) : Option StoredResult :=
  if st.isCollecting then
    some { group := st.groupInfo
           posts := (removeDuplicatePosts st.scrapedPosts).take st.postsToCollect
           totalScraped := (removeDuplicatePosts st.scrapedPosts).length
           isComplete := true
           partialData := false }
  else none

/-- `startCollecting(count)` (lines 1015-1040): rejected while already
collecting; otherwise resets the run-scoped state and records the target. -/
def startCollecting (count : Nat) (st : ScraperState) : ScraperState :=
  if st.isCollecting then st
  else { st with
         isCollecting := true
         isPaused := false
         postsToCollect := count
         scrapedPosts := []
         processedIds := []
         lastLoadTime := 1000 }

/-- `saveCurrentProgress` (lines 1228-1246): the periodic checkpoint written
to the `fb-scraper-progress-data` key, always `isComplete: false` and with
no `partialData` field. -/
def saveCurrentProgress (st : ScraperState) : StoredResult :=
  { group := st.groupInfo
    posts := st.scrapedPosts
    totalScraped := st.scrapedPosts.length
    isComplete := false
    partialData := false }

/-- What reading one localStorage key yields: no value, a string that fails
`JSON.parse`, or a parsed result object. -/
inductive StoredFetch where
  | missing
  | corrupt
  | val (r : StoredResult)
deriving DecidableEq

/-- The two localStorage keys both retrieval paths read:
`fb-scraper-last-result` then `fb-scraper-progress-data`. -/
structure LocalStore where
  lastResult : StoredFetch
  progressData : StoredFetch
deriving DecidableEq

/-- Both retrieval paths read the last-result key and fall back to the
progress key only when the former is absent (a present-but-corrupt string is
truthy and is kept). -/
def pickStored (store : LocalStore) : StoredFetch :=
  match store.lastResult with
  | .missing => store.progressData
  | f => f

/-- The `requestData` handler of content-script.js (lines 46-75): respond
with the parsed stored object unchanged; a missing value or a parse failure
responds with no data.  No `partialData` marker is added on this path. -/
def requestDataHandler (store : LocalStore) : Option StoredResult :=
  match pickStored store with
  | .missing => none
  | .corrupt => none
  | .val r => some r

/-- `retrieveFromLocalStorage` of popup.js (lines 358-380): same key order,
but a retrieved object with `isComplete` false gets `partialData := true`
before it is returned for export. -/
def retrieveFromLocalStorage (store : LocalStore) : Option StoredResult :=
  match pickStored store with
  | .missing => none
  | .corrupt => none
  | .val r => some (if r.isComplete then r else { r with partialData := true })

/-- Sample author for concrete witnesses. -/
def sampleAuthor : Author :=
  { name := "Ann Smith", id := none, profileUrl := none }

/-- Sample post for concrete witnesses. -/
def samplePost1 : Post :=
  { postId := "100200300"
    content := "first sample post body"
    author := sampleAuthor
    timestamp := "2024-01-01T00:00:00.000Z"
    images := []
    likes := 3
    comments := []
    extraction_success := true }

/-- A second sample post with a distinct identifier. -/
def samplePost2 : Post :=
  { samplePost1 with postId := "100200301", content := "second sample post body" }

/-- A collecting state holding a duplicate, for the finish-collection
witnesses. -/
def sampleState : ScraperState :=
  { scrapedPosts := [samplePost1, samplePost2, samplePost1]
    processedIds := []
    isCollecting := true
    isPaused := false
    postsToCollect := 2
    lastLoadTime := 1000
    groupInfo := none }

/-- The result `finishCollection` emits for `sampleState`. -/
def sampleResult : StoredResult :=
  { group := none
    posts := [samplePost1, samplePost2]
    totalScraped := 2
    isComplete := true
    partialData := false }

/-- A run stopped at 3 of 5 posts, for the partial-result evaluation. -/
def stoppedState : ScraperState :=
  { sampleState with postsToCollect := 5, isCollecting := false }

/-- The checkpoint `saveCurrentProgress` wrote during the stopped run. -/
def samplePartial : StoredResult := saveCurrentProgress stoppedState

/-- localStorage after the stopped run: no completed result, only the
progress checkpoint. -/
def sampleStore : LocalStore :=
  { lastResult := .missing, progressData := .val samplePartial }

/-- A node exposing nothing usable: no `data-ft`, no permalink anchor, no
text, and a faulting fingerprint computation. -/
def sampleBareNode : PostNode :=
  { dataFt := none
    permalinkHrefs := []
    textContent := ""
    authorText := none
    domFault := true }

/-- A node with body text only: no identifier-bearing metadata or anchor. -/
def sampleTextNode : PostNode :=
  { dataFt := none
    permalinkHrefs := []
    textContent := "Selling a blue city bicycle in great condition, pickup downtown"
    authorText := none
    domFault := false }

/-- 19-character text whose 9-character prefix is also a candidate. -/
def sampleLongText : String := "aaaa bbbb cccc dddd"

/-- 9-character prefix of `sampleLongText` (ratio above 1.2). -/
def sampleShortText : String := "aaaa bbbb"

/-- 17-character prefix of `sampleLongText` (ratio below 1.2). -/
def sampleMidText : String := "aaaa bbbb cccc dd"

theorem string_eq_empty_of_length (s : String) (h : s.length = 0) : s = "" := by
  cases s with
  | mk dat =>
    have hd : dat = [] := List.length_eq_zero.mp h
    rw [hd]

theorem append_ne_empty_left (a b : String) (ha : a ≠ "") : a ++ b ≠ "" := by
  intro h
  apply ha
  have hd := congrArg String.data h
  rw [String.data_append] at hd
  have ha0 : a.data = [] := (List.append_eq_nil.mp hd).1
  cases a with
  | mk dat =>
    rw [show dat = [] from ha0]

/-- C8: in every Loading cycle the settle delay is the previous measured
load duration clamped to the range 500..2000 milliseconds, and the fixed
initial tracker value 1000 yields a delay inside that range. -/
theorem loadMoreTimeout_in_range (lastLoadTime : Int) :
    500 ≤ loadMoreTimeout lastLoadTime ∧ loadMoreTimeout lastLoadTime ≤ 2000 ∧
    loadMoreTimeout initialLastLoadTime = 1000 := by
  unfold loadMoreTimeout initialLastLoadTime
  exact ⟨le_max_left _ _, max_le (by norm_num) (min_le_left _ _), by decide⟩

/-- C9: the standalone hashString helper does not terminate on any non-empty
input string — its loop guard is the constant `str.length` — so for every
amount of fuel the modelled loop fails to produce a value.  (It terminates
only on the empty string, where it returns 0.) -/
theorem hashString_diverges_on_nonempty (str : String) (h : str ≠ "") :
    ∀ (fuel : Nat) (hash : Int) (i : Nat), hashStringFuel str fuel hash i = none := by
  intro fuel
  induction fuel with
  | zero => intro hash i; rfl
  | succ n ih =>
    intro hash i
    rw [hashStringFuel]
    rw [if_neg (fun hl => h (string_eq_empty_of_length str hl))]
    exact ih _ _

theorem hashString_diverges_on_nonempty_sample :
    hashStringFuel "a" 3 0 0 = none :=
  hashString_diverges_on_nonempty "a" (by decide) 3 0 0

/-- C10: calculateSimilarity is symmetric in its two arguments and its value
always lies in the closed interval from 0 to 1. -/
theorem calculateSimilarity_symm_bounded (str1 str2 : String) :
    calculateSimilarity str1 str2 = calculateSimilarity str2 str1 ∧
    0 ≤ calculateSimilarity str1 str2 ∧ calculateSimilarity str1 str2 ≤ 1 := by
  have hcard1 : ((wordSet str1 ∩ wordSet str2).card : ℚ) ≤ ((wordSet str1).card : ℚ) := by
    exact_mod_cast Finset.card_le_card Finset.inter_subset_left
  have hcard2 : ((wordSet str1 ∩ wordSet str2).card : ℚ) ≤ ((wordSet str2).card : ℚ) := by
    exact_mod_cast Finset.card_le_card Finset.inter_subset_right
  have hpos2 : (0 : ℚ) ≤ ((wordSet str2).card : ℚ) := Nat.cast_nonneg _
  refine ⟨?_, ?_, ?_⟩
  · unfold calculateSimilarity
    rw [max_comm str2.length str1.length, min_comm str2.length str1.length,
      Finset.inter_comm (wordSet str2) (wordSet str1),
      add_comm ((wordSet str2).card : ℚ) ((wordSet str1).card : ℚ)]
  · unfold calculateSimilarity
    split
    · exact le_refl 0
    · apply div_nonneg
      · exact Nat.cast_nonneg _
      · linarith
  · unfold calculateSimilarity
    split
    · norm_num
    · apply div_le_one_of_le₀
      · linarith
      · linarith

theorem removeDuplicatePostsAux_keys (l : List Post) :
    ∀ seen : List (Option String),
      ((removeDuplicatePostsAux seen l).map dedupKey).Nodup ∧
      ∀ k ∈ (removeDuplicatePostsAux seen l).map dedupKey, k ∉ seen := by
  induction l with
  | nil =>
    intro seen
    constructor
    · simp [removeDuplicatePostsAux]
    · simp [removeDuplicatePostsAux]
  | cons p rest ih =>
    intro seen
    rw [removeDuplicatePostsAux]
    split
    · exact ⟨(ih seen).1, (ih seen).2⟩
    next hnot =>
      obtain ⟨ihd, ihm⟩ := ih (dedupKey p :: seen)
      constructor
      · rw [List.map_cons]
        exact List.nodup_cons.mpr ⟨fun hm => (ihm _ hm) (List.mem_cons_self _ _), ihd⟩
      · rw [List.map_cons]
        intro k hk hks
        rcases List.mem_cons.mp hk with rfl | hk'
        · exact hnot hks
        · exact (ihm k hk') (List.mem_cons_of_mem _ hks)

/-- C1: whenever finishCollection is invoked while collecting and emits a
result, that result's posts list has length at most the target count
(`postsToCollect`, the count passed to startCollecting). -/
theorem finishCollection_posts_le_target (st : ScraperState) (r : StoredResult)
    (h : finishCollection st = some r) :
    r.posts.length ≤ st.postsToCollect := by
  unfold finishCollection at h
  split at h
  · obtain rfl := Option.some.inj h
    exact List.length_take_le _ _
  · exact absurd h (by simp)

theorem finishCollection_posts_le_target_sample :
    finishCollection sampleState = some sampleResult ∧
    sampleResult.posts.length ≤ sampleState.postsToCollect :=
  ⟨by decide, finishCollection_posts_le_target sampleState sampleResult (by decide)⟩

/-- C2: in every emitted completion result — after the final duplicate sweep
keyed by `postId` with the content-fingerprint fallback, and after the trim
to the target count — no two posts share the same deduplication key. -/
theorem finishCollection_keys_nodup (st : ScraperState) (r : StoredResult)
    (h : finishCollection st = some r) :
    (r.posts.map dedupKey).Nodup := by
  unfold finishCollection at h
  split at h
  · obtain rfl := Option.some.inj h
    show (((removeDuplicatePosts st.scrapedPosts).take st.postsToCollect).map dedupKey).Nodup
    rw [List.map_take]
    exact List.Nodup.sublist (List.take_sublist _ _)
      ((removeDuplicatePostsAux_keys st.scrapedPosts []).1)
  · exact absurd h (by simp)

theorem finishCollection_keys_nodup_sample :
    finishCollection sampleState = some sampleResult ∧
    (sampleResult.posts.map dedupKey).Nodup :=
  ⟨by decide, finishCollection_keys_nodup sampleState sampleResult (by decide)⟩

theorem dataFtId_ne_empty (n : PostNode) (s : String) (h : dataFtId n = some s) :
    s ≠ "" := by
  intro hs
  subst hs
  unfold dataFtId at h
  split at h
  · split at h
    · simp_all
    · split at h
      · simp_all
      · simp_all
  · simp_all

theorem scanPatDigits_ne_empty (pat : List Char) :
    ∀ (l : List Char) (s : String), scanPatDigits pat l = some s → s ≠ "" := by
  intro l
  induction l with
  | nil => intro s h; simp [scanPatDigits] at h
  | cons c rest ih =>
    intro s h
    rw [scanPatDigits] at h
    split at h
    · split at h
      · exact ih s h
      next hne =>
        intro hs
        subst hs
        have hd := congrArg String.data (Option.some.inj h)
        exact hne (by simpa using congrArg List.isEmpty hd)
    · exact ih s h

theorem permalinkId_ne_empty (href : String) (s : String)
    (h : permalinkId href = some s) : s ≠ "" := by
  unfold permalinkId at h
  split at h
  next heq => exact (Option.some.inj h) ▸ scanPatDigits_ne_empty _ _ _ heq
  next =>
    split at h
    next heq => exact (Option.some.inj h) ▸ scanPatDigits_ne_empty _ _ _ heq
    next => exact scanPatDigits_ne_empty _ _ _ h

theorem findSome?_ne_empty {α : Type} (f : α → Option String)
    (hf : ∀ a s, f a = some s → s ≠ "") :
    ∀ (l : List α) (s : String), l.findSome? f = some s → s ≠ "" := by
  intro l
  induction l with
  | nil => intro s h; simp [List.findSome?] at h
  | cons a as ih =>
    intro s h
    rw [List.findSome?_cons] at h
    split at h
    next t heq => exact (Option.some.inj h) ▸ hf a t heq
    next => exact ih s h

theorem permalinkTierId_ne_empty (n : PostNode) (s : String)
    (h : permalinkTierId n = some s) : s ≠ "" := by
  refine findSome?_ne_empty _ ?_ n.permalinkHrefs s h
  intro href t ht
  by_cases hh : href = ""
  · rw [if_pos hh] at ht; simp at ht
  · rw [if_neg hh] at ht; exact permalinkId_ne_empty href t ht

/-- C3: identity resolution always yields a non-empty string identifier for
every input node, and when the metadata tier, the permalink tier and the
content-fingerprint tier (including its internal-exception path, whose catch
yields a null fingerprint) all fail, the resolver returns the generated
identifier. -/
theorem extractPostId_total_with_fallback (n : PostNode) (gen : String) :
    extractPostId n gen ≠ "" ∧
    (dataFtId n = none → permalinkTierId n = none → createContentFingerprint n = none →
      extractPostId n gen = "generated_" ++ gen) := by
  constructor
  · unfold extractPostId
    cases h1 : dataFtId n with
    | some id => exact dataFtId_ne_empty n id h1
    | none =>
      cases h2 : permalinkTierId n with
      | some id => exact permalinkTierId_ne_empty n id h2
      | none =>
        cases h3 : createContentFingerprint n with
        | some fp => exact append_ne_empty_left "content_" fp (by decide)
        | none => exact append_ne_empty_left "generated_" gen (by decide)
  · intro h1 h2 h3
    unfold extractPostId
    rw [h1, h2, h3]

theorem extractPostId_total_with_fallback_sample :
    extractPostId sampleBareNode "a1b2c3" ≠ "" ∧
    extractPostId sampleBareNode "a1b2c3" = "generated_" ++ "a1b2c3" :=
  ⟨(extractPostId_total_with_fallback sampleBareNode "a1b2c3").1,
   (extractPostId_total_with_fallback sampleBareNode "a1b2c3").2 rfl rfl rfl⟩

/-- C4: for a node whose attributes carry no parseable identifier, with no
permalink anchor but non-empty text, extractPostId resolves through the
content fingerprint, and two invocations (with different run-dependent
generated suffixes) return the same identifier. -/
theorem extractPostId_fingerprint_stable (n : PostNode) (g1 g2 : String)
    (h1 : dataFtId n = none) (h2 : n.permalinkHrefs = [])
    (h3 : n.domFault = false) (_h4 : n.textContent ≠ "") :
    ∃ fp, createContentFingerprint n = some fp ∧
      extractPostId n g1 = "content_" ++ fp ∧
      extractPostId n g2 = "content_" ++ fp := by
  have h2' : permalinkTierId n = none := by
    unfold permalinkTierId
    rw [h2]
    rfl
  have hfp : createContentFingerprint n =
      some (hexOfNat (hashLoop
        ((match n.authorText with
          | some t => t.trim
          | none => "") ++ "_" ++ (String.mk (n.textContent.data.take 100)).trim)).natAbs) := by
    unfold createContentFingerprint
    rw [h3]
    rfl
  refine ⟨_, hfp, ?_, ?_⟩
  · unfold extractPostId
    rw [h1, h2', hfp]
  · unfold extractPostId
    rw [h1, h2', hfp]

theorem extractPostId_fingerprint_stable_sample :
    extractPostId sampleTextNode "r1x" = extractPostId sampleTextNode "r2y" := by
  obtain ⟨fp, -, ha, hb⟩ :=
    extractPostId_fingerprint_stable sampleTextNode "r1x" "r2y" rfl rfl rfl (by decide)
  rw [ha, hb]

theorem mem_of_dropNearDupsAux :
    ∀ (l prevs : List String) (t : String), t ∈ dropNearDupsAux prevs l → t ∈ l := by
  intro l
  induction l with
  | nil => intro prevs t h; simp [dropNearDupsAux] at h
  | cons x rest ih =>
    intro prevs t h
    rw [dropNearDupsAux] at h
    split at h
    · exact List.mem_cons_of_mem _ (ih _ t h)
    · rcases List.mem_cons.mp h with rfl | h'
      · exact List.mem_cons_self _ _
      · exact List.mem_cons_of_mem _ (ih _ t h')

theorem dropNearDupsAux_not_mem (t p : String) (hsh : nearDuplicateOf p t = true) :
    ∀ (pre prevs post : List String),
      p ∈ prevs ++ pre → t ∉ pre → t ∉ post →
      t ∉ dropNearDupsAux prevs (pre ++ t :: post) := by
  intro pre
  induction pre with
  | nil =>
    intro prevs post hp _ hpost
    rw [List.append_nil] at hp
    rw [List.nil_append, dropNearDupsAux]
    have hany : (prevs.any fun prevText => nearDuplicateOf prevText t) = true :=
      List.any_eq_true.mpr ⟨p, hp, hsh⟩
    rw [hany]
    simp only [if_true]
    intro hmem
    exact hpost (mem_of_dropNearDupsAux _ _ _ hmem)
  | cons x pre' ih =>
    intro prevs post hp htpre hpost
    have htx : t ≠ x := fun e => htpre (e ▸ List.mem_cons_self x pre')
    have htpre' : t ∉ pre' := fun hm => htpre (List.mem_cons_of_mem _ hm)
    have hp' : p ∈ (prevs ++ [x]) ++ pre' := by
      rw [List.append_assoc]
      exact hp
    rw [List.cons_append, dropNearDupsAux]
    split
    · exact ih (prevs ++ [x]) post hp' htpre' hpost
    · intro hmem
      rcases List.mem_cons.mp hmem with rfl | hmem'
      · exact htx rfl
      · exact ih (prevs ++ [x]) post hp' htpre' hpost hmem'

/-- C5 counterexample: the claim that a candidate contained in an
already-kept longer string is always dropped fails — with a 17-character
substring of a kept 19-character text (ratio below 1.2) both texts survive
the near-duplicate suppression. -/
theorem substring_below_ratio_survives :
    jsIncludes sampleLongText.data sampleMidText.data = true ∧
    sampleMidText.length < sampleLongText.length ∧
    sampleLongText ∈ extractAllContentKept [sampleLongText, sampleMidText] ∧
    sampleMidText ∈ extractAllContentKept [sampleLongText, sampleMidText] := by
  decide

/-- C5 (amended): in the final suppression step a candidate is dropped
whenever an earlier string of the length-sorted candidate list is more than
1.2 times its length and either contains it or exceeds the 0.85 similarity
threshold against it; in particular a substring of a kept text more than 1.2
times as long does not survive into the post body. -/
theorem extractAllContent_drops_shadowed (contents : List String)
    (p t : String) (pre post : List String)
    (hsort : sortByLenDesc contents = pre ++ t :: post)
    (hnd : (sortByLenDesc contents).Nodup)
    (hp : p ∈ pre)
    (hlong : 5 * p.length > 6 * t.length)
    (hdup : jsIncludes p.data t.data = true ∨ (17 : ℚ) / 20 < calculateSimilarity p t) :
    t ∉ extractAllContentKept contents := by
  have hsh : nearDuplicateOf p t = true := by
    unfold nearDuplicateOf
    rw [if_pos hlong]
    rcases hdup with h | h
    · simp [h]
    · simp [h]
  rw [hsort] at hnd
  obtain ⟨-, hnd2, hdisj⟩ := List.nodup_append.mp hnd
  have htpre : t ∉ pre := fun hm => hdisj hm (List.mem_cons_self _ _)
  have htpost : t ∉ post := (List.nodup_cons.mp hnd2).1
  unfold extractAllContentKept
  rw [hsort]
  exact dropNearDupsAux_not_mem t p hsh pre [] post (by simpa using hp) htpre htpost

theorem extractAllContent_drops_shadowed_sample :
    sampleShortText ∉ extractAllContentKept [sampleLongText, sampleShortText] :=
  extractAllContent_drops_shadowed [sampleLongText, sampleShortText]
    sampleLongText sampleShortText [sampleLongText] []
    (by decide) (by decide) (by decide) (by decide) (Or.inl (by decide))

/-- C6: code evaluation at the failing input — after a run stopped at 3 of 5
posts, the partial checkpoint is retrievable on both paths, but the
content-script requestData path returns it without the partialData marker
(the claim requires the marker on every retrieval path), while the injected
retrieveFromLocalStorage fallback does add it. -/
theorem requestData_partial_lacks_marker :
    requestDataHandler sampleStore = some samplePartial ∧
    samplePartial.isComplete = false ∧
    samplePartial.partialData = false ∧
    retrieveFromLocalStorage sampleStore =
      some { samplePartial with partialData := true } :=
  ⟨rfl, rfl, rfl, rfl⟩

/-- C7: a post record's extraction_success flag is true exactly when the
assembled body text is non-empty; when the flag is false the stored content
is the placeholder, and when it is true the stored content is the extracted
text itself. -/
theorem extractPostData_success_iff_text (postId : String) (contents : List String)
    (author : Author) (timestamp : String) (images : List String) (likes : Nat)
    (comments : List Comment) :
    ((extractPostData postId contents author timestamp images likes
        comments).extraction_success = true ↔ extractAllContent contents ≠ "") ∧
    ((extractPostData postId contents author timestamp images likes
        comments).extraction_success = false →
      (extractPostData postId contents author timestamp images likes
        comments).content = "[No content extracted]") ∧
    ((extractPostData postId contents author timestamp images likes
        comments).extraction_success = true →
      (extractPostData postId contents author timestamp images likes
        comments).content = extractAllContent contents) := by
  by_cases h : extractAllContent contents = ""
  · simp [extractPostData, h]
  · simp [extractPostData, h]
